import Mathlib

/-!
Shallow embedding of the generation-versioned pack-index store of
`git-odb/src/store/general` (`store.rs` and `load_index.rs`), together with
proofs about its refresh protocol, disk-consolidation pass, lazy file
loading, slot binding and snapshot collection.

Modelling conventions:
* `Arc<T>` behind an `ArcSwap` is modelled as a value paired with a pointer
  identity (`ptr : Nat`); `Arc::as_ptr` equality is `ptr` equality.
* Paths are plain strings; `Path::extension` / `file_name` follow the Rust
  rules on the portion after the last `/`.
* The CRC32 state fingerprint is modelled as the injective pair of the data
  it digests (snapshot pointer identity, loaded-indices counter).
* `panic!` / `unreachable!` / `todo!` are modelled as an explicit `panic`
  result constructor: a computation that panics never produces a value.
* Filesystem access is a pure environment: the result of `read_dir` per
  directory, each directory entry's own `io::Result`s, and the alternates
  resolution result.
-/

namespace GitOdb

/-- Pointer-identity-carrying shared reference, the model of `Arc`. -/
structure Arc (α : Type) where
  ptr : Nat
  val : α
  deriving DecidableEq, Repr

/-- Model of `std::io::ErrorKind`, distinguishing only what the code does:
`NotFound` versus everything else. -/
inductive IoError where
  | notFound
  | other (code : Nat)
  deriving DecidableEq, Repr

/-- Opaque external handle: a parsed `git_pack::index::File`. -/
abbrev PackIndexFile := Nat
/-- Opaque external handle: a parsed `git_pack::data::File`. -/
abbrev PackDataFile := Nat
/-- Opaque external handle: a parsed multi-pack-index file. -/
abbrev MultiPackIndexFile := Nat

/-- Opaque external error of `crate::alternate::resolve`. -/
abbrev AlternateError := Nat

/-- The error enum of `load_index.rs` (`Inaccessible | Io | Alternate`). -/
inductive Error where
  | Inaccessible (path : String)
  | Io (e : IoError)
  | Alternate (e : AlternateError)
  deriving DecidableEq, Repr

/-- A computation that either panics (`panic!`, `todo!`, `unreachable!`)
with a message or yields a value. -/
inductive PanicOr (α : Type) where
  | panic (msg : String)
  | value (v : α)
  deriving DecidableEq, Repr

/-- Split a character list at every occurrence of `c` (the semantics of
`String.splitOn` for a one-character separator). -/
def splitOnChar (c : Char) : List Char → List (List Char)
  | [] => [[]]
  | x :: xs =>
    match splitOnChar c xs with
    | [] => [[]]
    | h :: t => if x = c then [] :: h :: t else (x :: h) :: t

/-- The file-name portion of a path: everything after the last `/`. -/
def fileNameOf (p : String) : String :=
  String.mk ((splitOnChar '/' p.data).getLastD [])

/-- `std::path::Path::extension`: the portion of the file name after the
final `.`; `none` when there is no dot, or when the only dot leads a
hidden-file name. -/
def rustExtension (p : String) : Option String :=
  match splitOnChar '.' (fileNameOf p).data with
  | [] => none
  | [_] => none
  | [] :: [_] => none
  | parts => parts.getLast?.map String.mk

/-- `Path::with_extension`: drop the current extension (if any) and append
the new one. -/
def withExtension (p : String) (ext : String) : String :=
  match rustExtension p with
  | some e => p.dropRight (e.length + 1) ++ "." ++ ext
  | none => p ++ "." ++ ext

/-- `OnDiskFileState<T>` from `store.rs`: the four-state lazy-load
lifecycle of one on-disk file. -/
inductive OnDiskFileState (T : Type) where
  | Unloaded
  | Loaded (v : T)
  | Garbage (v : T)
  | Missing
  deriving DecidableEq, Repr

/-- `OnDiskFile<T>` from `store.rs`: last known path plus load state. -/
structure OnDiskFile (T : Type) where
  path : String
  state : OnDiskFileState T
  deriving DecidableEq, Repr

/-- `OnDiskFile::is_loaded`: true in `Loaded` and `Garbage` states. -/
def OnDiskFile.is_loaded {T : Type} (f : OnDiskFile T) : Bool :=
  match f.state with
  | .Loaded _ => true
  | .Garbage _ => true
  | _ => false

/-- `OnDiskFile::loaded`: the held value in `Loaded`/`Garbage`, else none. -/
def OnDiskFile.loaded {T : Type} (f : OnDiskFile T) : Option T :=
  match f.state with
  | .Loaded v => some v
  | .Garbage v => some v
  | .Unloaded => none
  | .Missing => none

/-- `OnDiskFile::do_load`: lazily open the file through `load`. Panics on
`Loaded`/`Garbage` (caller contract violation); `Missing` short-circuits;
`Unloaded` invokes the opener and transitions according to its outcome.
Returns the `io::Result<Option<T>>` together with the updated file. -/
def OnDiskFile.do_load {T : Type} (f : OnDiskFile T)
    (load : String → Except IoError T) :
    PanicOr (Except IoError (Option T) × OnDiskFile T) :=
  match f.state with
  | .Loaded _ => .panic "BUG: check before calling this"
  | .Garbage _ => .panic "BUG: check before calling this"
  | .Missing => .value (.ok none, f)
  | .Unloaded =>
    match load f.path with
    | .ok v => .value (.ok (some v), { f with state := .Loaded v })
    | .error .notFound => .value (.ok none, { f with state := .Missing })
    | .error e => .value (.error e, f)

/-- `IndexFileBundle`: one `.idx` index plus its pack data file. -/
structure IndexFileBundle where
  index : OnDiskFile PackIndexFile
  data : OnDiskFile PackDataFile
  deriving DecidableEq, Repr

/-- `MultiIndexFileBundle`: one multi-pack-index plus its data files. -/
structure MultiIndexFileBundle where
  multi_index : OnDiskFile MultiPackIndexFile
  data : List (OnDiskFile PackDataFile)
  deriving DecidableEq, Repr

/-- `IndexAndPacks`: the two file-bundle variants. -/
inductive IndexAndPacks where
  | Index (b : IndexFileBundle)
  | MultiIndex (b : MultiIndexFileBundle)
  deriving DecidableEq, Repr

/-- `IndexAndPacks::index_path`: the path of the primary index file. -/
def IndexAndPacks.index_path : IndexAndPacks → String
  | .Index b => b.index.path
  | .MultiIndex b => b.multi_index.path

/-- `IndexAndPacks::new_single`: a single bundle with the data path derived
from the index path by swapping the extension to `pack`. -/
def IndexAndPacks.new_single (index_path : String) : IndexAndPacks :=
  .Index
    { index := { path := index_path, state := .Unloaded }
      data := { path := withExtension index_path "pack", state := .Unloaded } }

/-- `IndexAndPacks::new_multi`: in the source the `data` field is a
`todo!`, so constructing a multi bundle panics unconditionally. -/
def IndexAndPacks.new_multi (index_path : String) : PanicOr IndexAndPacks :=
  let _ := index_path
  .panic "figure we actually have to map it here or find a way to learn about the data files in advance."

/-- `crate::loose::Store`: opaque external loose-object database; the code
only uses its construction from a path and its `path` field. -/
structure LooseStore where
  path : String
  deriving DecidableEq, Repr

/-- `loose::Store::at`. -/
def LooseStore.at (p : String) : LooseStore := { path := p }

/-- `StateId` is a CRC32 digest of the snapshot's pointer identity and the
loaded-indices counter; modelled as the injective pair of those inputs. -/
abbrev StateId := Nat × Nat

/-- `SlotIndexMarker`: a caller-held bookmark (generation, fingerprint). -/
structure SlotIndexMarker where
  generation : Nat
  state_id : StateId
  deriving DecidableEq, Repr

/-- `SlotMapIndex`: the immutable slot-map snapshot. `loaded_indices` and
`next_index_to_load` hold the observed values of the shared atomics. -/
structure SlotMapIndex where
  slot_indices : List Nat
  loose_dbs : Arc (List LooseStore)
  generation : Nat
  next_index_to_load : Nat
  loaded_indices : Nat
  deriving DecidableEq, Repr

/-- `SlotMapIndex::state_id`: digest of `Arc::as_ptr(self)` and the
`loaded_indices` counter. -/
def SlotMapIndex.state_id (self : Arc SlotMapIndex) : StateId :=
  (self.ptr, self.val.loaded_indices)

/-- `SlotMapIndex::is_initialized`: at least one loose db is known. -/
def SlotMapIndex.is_initialized (self : SlotMapIndex) : Bool :=
  !self.loose_dbs.val.isEmpty

/-- `SlotMapIndex::marker`. -/
def SlotMapIndex.marker (self : Arc SlotMapIndex) : SlotIndexMarker :=
  { generation := self.val.generation, state_id := SlotMapIndex.state_id self }

/-- `MutableIndexAndPack`: one slot — an atomically swappable optional
bundle (the per-slot init lock is implicit in the sequential model). -/
structure MutableIndexAndPack where
  files : Option IndexAndPacks
  deriving DecidableEq, Repr

/-- The `general::Store`: current snapshot pointer, slot array, canonical
objects directory, and the counters the modelled code reads or writes. -/
structure Store where
  path : String
  index : Arc SlotMapIndex
  files : List MutableIndexAndPack
  num_handles_stable : Nat
  num_disk_state_consolidation : Nat
  deriving DecidableEq, Repr

/-- `RefreshMode`. -/
inductive RefreshMode where
  | Never
  | AfterAllIndicesLoaded
  deriving DecidableEq, Repr

/-- `handle::SingleOrMultiIndex`: a ready-to-search lookup entry. -/
inductive SingleOrMultiIndex where
  | Single (index : PackIndexFile) (data : Option PackDataFile)
  | Multi (index : MultiPackIndexFile) (data : List (Option PackDataFile))
  deriving DecidableEq, Repr

/-- `handle::IndexLookup`. -/
structure IndexLookup where
  file : SingleOrMultiIndex
  id : Nat
  deriving DecidableEq, Repr

/-- `load_index::Snapshot`: the caller-facing result of a refresh. -/
structure Snapshot where
  indices : List IndexLookup
  loose_dbs : Arc (List LooseStore)
  marker : SlotIndexMarker
  deriving DecidableEq, Repr

/-- `load_index::Outcome`. -/
inductive Outcome where
  | Replace (s : Snapshot)
  | ReplaceStable (s : Snapshot)
  deriving DecidableEq, Repr

/-- Result of a store operation returning `Result<Option<Outcome>, Error>`,
with panics (`todo!`, `unreachable!`, assertion failures) made explicit. -/
inductive OpResult where
  | ok (o : Option Outcome)
  | err (e : Error)
  | panic (msg : String)
  deriving DecidableEq, Repr

instance {ε α : Type} [DecidableEq ε] [DecidableEq α] :
    DecidableEq (Except ε α) := fun a b =>
  match a, b with
  | .ok x, .ok y =>
    if h : x = y then .isTrue (congrArg Except.ok h)
    else .isFalse (fun hh => h (Except.ok.inj hh))
  | .error x, .error y =>
    if h : x = y then .isTrue (congrArg Except.error h)
    else .isFalse (fun hh => h (Except.error.inj hh))
  | .ok _, .error _ => .isFalse (fun hh => Except.noConfusion hh)
  | .error _, .ok _ => .isFalse (fun hh => Except.noConfusion hh)

/-- Metadata of one directory entry: file-type and the (fallible)
modification time, as consumed by the scan. -/
structure Metadata where
  is_file : Bool
  modified : Except IoError Nat
  deriving DecidableEq, Repr

/-- One entry yielded by `read_dir`, with its own fallible `metadata()`. -/
structure DirEntry where
  path : String
  metadata : Except IoError Metadata
  deriving DecidableEq, Repr

/-- The filesystem/alternates environment a consolidation pass reads. -/
structure FsEnv where
  alternates : Except AlternateError (List String)
  readDir : String → Except IoError (List (Except IoError DirEntry))
  fresh_ptr : Nat

/-- The scan's name filter: extension is `idx`, or no extension and the
file name is exactly `multi-pack-index`. -/
def scanNameFilter (p : String) : Bool :=
  rustExtension p = some "idx"
    || (rustExtension p = none && fileNameOf p = "multi-pack-index")

/-- The `collect::<Result<Vec<_>, _>>()` step of the scan: retrieve each
kept file's modification time, aborting at the first failure. -/
def collectMtimes : List (String × Metadata) → Except Error (List (String × Nat))
  | [] => .ok []
  | x :: rest =>
    match x.2.modified with
    | .error e => .error (.Io e)
    | .ok t =>
      match collectMtimes rest with
      | .error e => .error e
      | .ok ts => .ok ((x.1, t) :: ts)

/-- The per-directory body of the scan loop in
`consolidate_with_disk_state`: open the `pack` subdirectory (`NotFound` is
treated as an empty listing), drop entries whose retrieval or `metadata()`
fails, keep regular files passing `scanNameFilter`, then collect each kept
file's modification time, propagating the first failure. -/
def scanPackDir
    (readDir : Except IoError (List (Except IoError DirEntry))) :
    Except Error (List (String × Nat)) :=
  match readDir with
  | .error .notFound => .ok []
  | .error e => .error (.Io e)
  | .ok entries =>
    collectMtimes
      ((((entries.filterMap Except.toOption).filterMap
          (fun e => e.metadata.toOption.map (fun md => (e.path, md)))).filter
            (fun x => x.2.is_file)).filter (fun x => scanNameFilter x.1))

/-- The `for db_path in db_paths` scan loop: scan each directory's `pack`
subdirectory in order, extending one list, aborting at the first error. -/
def scanDirs (env : FsEnv) : List String → Except Error (List (String × Nat))
  | [] => .ok []
  | p :: rest =>
    match scanPackDir (env.readDir (p ++ "/pack")) with
    | .error e => .error e
    | .ok v =>
      match scanDirs env rest with
      | .error e => .error e
      | .ok vs => .ok (v ++ vs)

/-- `Store::maintain_stable_indices` (called with the scan lock held):
returns `num_handles_stable == 0` in the source. -/
def maintain_stable_indices (s : Store) : Bool :=
  s.num_handles_stable == 0

/-- Read a slot of the slot array (`&self.files[idx]`). -/
def slotAt (s : Store) (idx : Nat) : MutableIndexAndPack :=
  s.files.getD idx { files := none }

/-- `Store::collect_snapshot`: walk the live slot indices and emit a lookup
entry for every slot whose primary index file is loaded; share the
loose-dbs list by reference; attach a fresh marker. -/
def collect_snapshot (s : Store) : Snapshot :=
  let index := s.index
  let indices :=
    if SlotMapIndex.is_initialized index.val then
      (index.val.slot_indices.map (fun idx => (idx, slotAt s idx))).filterMap
        (fun x =>
          match (x.2.files).map (fun f =>
            match f with
            | .Index bundle =>
              (OnDiskFile.loaded bundle.index).map (fun i =>
                SingleOrMultiIndex.Single i (OnDiskFile.loaded bundle.data))
            | .MultiIndex multi =>
              (OnDiskFile.loaded multi.multi_index).map (fun i =>
                SingleOrMultiIndex.Multi i
                  (multi.data.map (fun f => OnDiskFile.loaded f)))) with
          | none => none
          | some none => none
          | some (some lookup) => some { file := lookup, id := x.1 })
    else []
  { indices := indices
    loose_dbs := s.index.val.loose_dbs
    marker := SlotMapIndex.marker s.index }

/-- `Store::collect_replace_outcome`. -/
def collect_replace_outcome (s : Store) (is_stable : Bool) : Outcome :=
  if is_stable then .ReplaceStable (collect_snapshot s)
  else .Replace (collect_snapshot s)

/-- `Store::assure_slot_for_path`: if the slot already holds a bundle its
bound path must equal the scanned path (assertion failure otherwise); an
empty slot is initialized only when `may_init`, else it is an
`unreachable!`. Returns the slot's (possibly initialized) bundle. -/
def assure_slot_for_path (files : Option IndexAndPacks) (index_path : String)
    (may_init : Bool) : PanicOr (Option IndexAndPacks) :=
  match files with
  | some f =>
    if IndexAndPacks.index_path f = index_path then .value (some f)
    else .panic "Parallel writers cannot change the file the slot points to."
  | none =>
    if may_init then
      match (if rustExtension index_path = some "idx" then
              .value (IndexAndPacks.new_single index_path)
             else IndexAndPacks.new_multi index_path) with
      | .panic m => .panic m
      | .value v => .value (some v)
    else
      .panic "BUG: a slot can never be deleted if we have it recorded in the index WHILE changing said index. There should not be a race"

/-- Remove a key from the `idx_by_index_path` map (`BTreeMap::remove`),
returning the removed value and the remaining map. -/
def removeKey (m : List (String × Nat)) (k : String) :
    Option Nat × List (String × Nat) :=
  match m with
  | [] => (none, [])
  | (k', v) :: rest =>
    if k' = k then (some v, rest)
    else
      let r := removeKey rest k
      (r.1, (k', v) :: r.2)

/-- Stable insertion into a list sorted newest-modification-time-first,
after `sort_by(|l, r| l.1.cmp(&r.1).reverse())`. -/
def insertByMtimeDesc (x : String × Nat) :
    List (String × Nat) → List (String × Nat)
  | [] => [x]
  | y :: ys => if x.2 > y.2 then x :: y :: ys else y :: insertByMtimeDesc x ys

/-- Stable sort of the scanned files, newest modification time first. -/
def sortByMtimeDesc (l : List (String × Nat)) : List (String × Nat) :=
  l.foldr insertByMtimeDesc []

/-- The per-path loop of `consolidate_with_disk_state`: each scanned path
either matches an existing slot (whose binding is asserted via
`assure_slot_for_path` with `may_init = false`) and its slot index is
carried forward, or it is recorded as a path to add. -/
def consolidateLoop (s : Store) (paths : List String)
    (m : List (String × Nat)) (existing : List Nat) (to_add : List String) :
    PanicOr (List Nat × List String × List (String × Nat)) :=
  match paths with
  | [] => .value (existing.reverse, to_add.reverse, m)
  | p :: rest =>
    match removeKey m p with
    | (some slot_idx, m') =>
      match assure_slot_for_path (slotAt s slot_idx).files p false with
      | .panic msg => .panic msg
      | .value _ => consolidateLoop s rest m' (slot_idx :: existing) to_add
    | (none, m') => consolidateLoop s rest m' existing (p :: to_add)

/-- `Store::consolidate_with_disk_state`. `indexBefore` is the snapshot
loaded before taking the scan lock (step 1); `s.index` is what the second
load observes once the lock is held, so a pointer mismatch is the lost
race. The source ends in `todo!("consolidate")`: the non-race path never
produces an `Ok` value. Returns the result and the updated store. -/
def consolidate_with_disk_state (indexBefore : Arc SlotMapIndex) (s : Store)
    (env : FsEnv) : OpResult × Store :=
  let index_state := indexBefore.ptr
  let previous_generation := indexBefore.val.generation
  -- the scan lock is acquired here; re-load the index
  let index := s.index
  if index_state ≠ index.ptr then
    (.ok (some (collect_replace_outcome s
        (index.val.generation == previous_generation))), s)
  else
    let was_uninitialized := ! SlotMapIndex.is_initialized index.val
    let needs_stable_indices := maintain_stable_indices s
    let _ := needs_stable_indices
    let s := { s with
      num_disk_state_consolidation := s.num_disk_state_consolidation + 1 }
    match env.alternates with
    | .error e => (.err (.Alternate e), s)
    | .ok alts =>
      let db_paths := s.path :: alts
      let loose_dbs :=
        if was_uninitialized
            || db_paths.length ≠ index.val.loose_dbs.val.length
            || (db_paths.zip (index.val.loose_dbs.val.map
                  (fun ldb => ldb.path))).any (fun x => x.1 ≠ x.2) then
          Arc.mk env.fresh_ptr (db_paths.map (fun p => LooseStore.at p))
        else index.val.loose_dbs
      let _ := loose_dbs
      match scanDirs env db_paths with
      | .error e => (.err e, s)
      | .ok scanned =>
        let indices_by_modification_time := sortByMtimeDesc scanned
        let idx_by_index_path := index.val.slot_indices.filterMap
          (fun idx => ((slotAt s idx).files).map
            (fun f => (IndexAndPacks.index_path f, idx)))
        match consolidateLoop s
            (indices_by_modification_time.map (fun x => x.1))
            idx_by_index_path [] [] with
        | .panic msg => (.panic msg, s)
        | .value _ =>
          -- deleted-slot retirement and snapshot publication are an
          -- incomplete sketch in the source: `todo!("consolidate")`
          (.panic "consolidate", s)

/-- `Store::load_one_index`: the refresh protocol. -/
def load_one_index (s : Store) (refresh_mode : RefreshMode)
    (marker : SlotIndexMarker) (env : FsEnv) : OpResult × Store :=
  let index := s.index
  if ! SlotMapIndex.is_initialized index.val then
    consolidate_with_disk_state s.index s env
  else if marker.generation ≠ index.val.generation then
    (.ok (some (collect_replace_outcome s false)), s)
  else if marker.state_id = SlotMapIndex.state_id index then
    match refresh_mode with
    | .Never => (.ok none, s)
    | .AfterAllIndicesLoaded => consolidate_with_disk_state s.index s env
  else
    (.ok (some (collect_replace_outcome s true)), s)

/-- Does a slot's primary index file lack a loaded (memory-mapped) value?
True also for an unbound slot. -/
def primary_unloaded (files : Option IndexAndPacks) : Bool :=
  match files with
  | none => true
  | some (.Index b) => (OnDiskFile.loaded b.index).isNone
  | some (.MultiIndex m) => (OnDiskFile.loaded m.multi_index).isNone

/-! Concrete fixtures used by witnesses. -/

/-- A loose store at the canonical objects directory. -/
def sampleLoose : LooseStore := LooseStore.at "objects"

/-- A single-index bundle bound to a scanned `.idx` path, not yet loaded. -/
def sampleBundle : IndexAndPacks := IndexAndPacks.new_single "objects/pack/p1.idx"

/-- An initialized slot-map snapshot with one live slot. -/
def sampleSMI : SlotMapIndex :=
  { slot_indices := [0]
    loose_dbs := Arc.mk 7 [sampleLoose]
    generation := 3
    next_index_to_load := 0
    loaded_indices := 2 }

/-- An initialized store with one bound slot and no stability handles. -/
def sampleStore : Store :=
  { path := "objects"
    index := Arc.mk 5 sampleSMI
    files := [{ files := some sampleBundle }]
    num_handles_stable := 0
    num_disk_state_consolidation := 0 }

/-- An environment with no alternates and an empty filesystem. -/
def sampleEnv : FsEnv :=
  { alternates := .ok []
    readDir := fun _ => .error .notFound
    fresh_ptr := 99 }

/-- C1: the spec claims `needs_stable_indices` is true iff
`num_handles_stable` is nonzero, and the function's own doc comment agrees
("stability means that indices returned by this API will remain valid");
but the source computes `num_handles_stable == 0`, the exact negation:
with one live stability-demanding handle it yields `false`, and with none
it yields `true`. -/
theorem C1_maintain_stable_indices_inverted :
    maintain_stable_indices { sampleStore with num_handles_stable := 1 } = false
      ∧ maintain_stable_indices { sampleStore with num_handles_stable := 0 } = true := by
  decide

/-- C5: `OnDiskFile::do_load` — `Missing` short-circuits to "not present"
without consulting the opener; from `Unloaded`, a successful open
transitions to `Loaded` and returns the value, a not-found failure
transitions to `Missing` and returns "not present" without error, any
other I/O failure leaves the state `Unloaded` and propagates the error;
calling it in state `Loaded` or `Garbage` is a panic (programming error),
never a recoverable error value. -/
theorem C5_do_load_state_machine {T : Type} (f : OnDiskFile T)
    (load : String → Except IoError T) :
    (f.state = .Missing →
      OnDiskFile.do_load f load = .value (.ok none, f)
        ∧ ∀ load', OnDiskFile.do_load f load = OnDiskFile.do_load f load')
    ∧ (∀ v, f.state = .Unloaded → load f.path = .ok v →
        OnDiskFile.do_load f load
          = .value (.ok (some v), { f with state := .Loaded v }))
    ∧ (f.state = .Unloaded → load f.path = .error .notFound →
        OnDiskFile.do_load f load
          = .value (.ok none, { f with state := .Missing }))
    ∧ (∀ c, f.state = .Unloaded → load f.path = .error (.other c) →
        OnDiskFile.do_load f load = .value (.error (.other c), f))
    ∧ (∀ v, f.state = .Loaded v ∨ f.state = .Garbage v →
        OnDiskFile.do_load f load = .panic "BUG: check before calling this") := by
  obtain ⟨p, st⟩ := f
  refine ⟨?_, ?_, ?_, ?_, ?_⟩
  · intro h
    cases st <;> simp_all [OnDiskFile.do_load]
  · intro v h hl
    cases st <;> simp_all [OnDiskFile.do_load]
  · intro h hl
    cases st <;> simp_all [OnDiskFile.do_load]
  · intro c h hl
    cases st <;> simp_all [OnDiskFile.do_load]
  · intro v h
    rcases h with h | h <;> cases st <;> simp_all [OnDiskFile.do_load]

/-- C5 witness: `do_load` on a `Missing` file returns "not present" and
leaves the file untouched. -/
theorem C5_do_load_state_machine_witness :
    OnDiskFile.do_load (⟨"objects/pack/p1.idx", .Missing⟩ : OnDiskFile Nat)
        (fun _ => .error (.other 0))
      = .value (.ok none, ⟨"objects/pack/p1.idx", .Missing⟩) :=
  ((C5_do_load_state_machine ⟨"objects/pack/p1.idx", .Missing⟩
      (fun _ => .error (.other 0))).1 rfl).1

/-- C9: a slot already holding a bundle bound to path `P` is never rebound:
`assure_slot_for_path` returns a value (rather than panicking on the
assertion) only when the scanned path equals `P`, and then it leaves the
binding unchanged. -/
theorem C9_no_path_rebinding (f : IndexAndPacks) (index_path : String)
    (may_init : Bool) (out : Option IndexAndPacks)
    (h : assure_slot_for_path (some f) index_path may_init = .value out) :
    IndexAndPacks.index_path f = index_path ∧ out = some f := by
  by_cases hp : IndexAndPacks.index_path f = index_path
  · refine ⟨hp, ?_⟩
    simp [assure_slot_for_path, hp] at h
    exact h.symm
  · simp [assure_slot_for_path, hp] at h

/-- C9 witness: asserting the sample slot against its own bound path
succeeds and keeps the binding. -/
theorem C9_no_path_rebinding_witness :
    IndexAndPacks.index_path sampleBundle = "objects/pack/p1.idx" :=
  (C9_no_path_rebinding sampleBundle "objects/pack/p1.idx" false
      (some sampleBundle) (by decide)).1

/-- C3: on an initialized store, a marker from a different generation
yields a non-stable `Replace` built from the current snapshot, and a
same-generation marker with a differing state fingerprint yields a stable
`ReplaceStable` built from the current snapshot; both paths are
disk-I/O-free: the result is the same for every filesystem environment
and the store is unchanged. -/
theorem C3_load_one_index_current_snapshot (s : Store)
    (marker : SlotIndexMarker) (mode : RefreshMode) (env : FsEnv)
    (hinit : SlotMapIndex.is_initialized s.index.val = true) :
    (marker.generation ≠ s.index.val.generation →
      load_one_index s mode marker env
        = (.ok (some (.Replace (collect_snapshot s))), s))
    ∧ (marker.generation = s.index.val.generation →
       marker.state_id ≠ SlotMapIndex.state_id s.index →
      load_one_index s mode marker env
        = (.ok (some (.ReplaceStable (collect_snapshot s))), s)) := by
  constructor
  · intro hgen
    simp [load_one_index, hinit, hgen, collect_replace_outcome]
  · intro hgen hsid
    simp [load_one_index, hinit, hgen, hsid, collect_replace_outcome]

/-- C3 witness: a marker from generation 4 against the sample store's
generation 3 yields a non-stable `Replace` of the current snapshot. -/
theorem C3_load_one_index_current_snapshot_witness :
    load_one_index sampleStore .Never
        { generation := 4, state_id := (5, 2) } sampleEnv
      = (.ok (some (.Replace (collect_snapshot sampleStore))), sampleStore) :=
  (C3_load_one_index_current_snapshot sampleStore
      { generation := 4, state_id := (5, 2) } .Never sampleEnv
      (by decide)).1 (by decide)

/-- C4: under `Never` refresh mode, an initialized store with a marker
matching both the current generation and the current state fingerprint
reports nothing new (`Ok(None)`) and leaves the store unchanged, so a
second call with the same marker reports nothing new as well. -/
theorem C4_never_nothing_new_idempotent (s : Store)
    (marker : SlotIndexMarker) (env env' : FsEnv)
    (hinit : SlotMapIndex.is_initialized s.index.val = true)
    (hgen : marker.generation = s.index.val.generation)
    (hsid : marker.state_id = SlotMapIndex.state_id s.index) :
    load_one_index s .Never marker env = (.ok none, s)
    ∧ load_one_index (load_one_index s .Never marker env).2 .Never marker env'
        = (.ok none, s) := by
  have h1 : load_one_index s .Never marker env = (.ok none, s) := by
    simp [load_one_index, hinit, hgen, hsid]
  refine ⟨h1, ?_⟩
  rw [h1]
  simp [load_one_index, hinit, hgen, hsid]

/-- C4 witness: the sample store's own marker reports nothing new. -/
theorem C4_never_nothing_new_idempotent_witness :
    load_one_index sampleStore .Never
        { generation := 3, state_id := (5, 2) } sampleEnv
      = (.ok none, sampleStore) :=
  (C4_never_nothing_new_idempotent sampleStore
      { generation := 3, state_id := (5, 2) } sampleEnv sampleEnv
      (by decide) (by decide) (by decide)).1

/-- C6: when the post-lock snapshot pointer differs from the pre-lock one
(another consolidation won the race), `consolidate_with_disk_state` does
no further work: it returns the outcome built from the winner's current
snapshot — stable `ReplaceStable` exactly when the generation is
unchanged, non-stable `Replace` when it differs — and leaves the store
untouched. -/
theorem C6_consolidate_lost_race (indexBefore : Arc SlotMapIndex)
    (s : Store) (env : FsEnv) (h : indexBefore.ptr ≠ s.index.ptr) :
    consolidate_with_disk_state indexBefore s env
      = (.ok (some
          (if s.index.val.generation = indexBefore.val.generation
           then Outcome.ReplaceStable (collect_snapshot s)
           else Outcome.Replace (collect_snapshot s))), s) := by
  by_cases hg : s.index.val.generation = indexBefore.val.generation
  · simp [consolidate_with_disk_state, h, hg, collect_replace_outcome]
  · simp [consolidate_with_disk_state, h, hg, collect_replace_outcome]

/-- C6 witness: a pre-lock pointer 6 against the sample store's pointer 5
adopts the winner's snapshot. -/
theorem C6_consolidate_lost_race_witness :
    consolidate_with_disk_state (Arc.mk 6 sampleSMI) sampleStore sampleEnv
      = (.ok (some
          (if sampleStore.index.val.generation
              = (Arc.mk 6 sampleSMI).val.generation
           then Outcome.ReplaceStable (collect_snapshot sampleStore)
           else Outcome.Replace (collect_snapshot sampleStore))),
        sampleStore) :=
  C6_consolidate_lost_race (Arc.mk 6 sampleSMI) sampleStore sampleEnv
    (by decide)

/-- C2: when no concurrent consolidation won the race (the snapshot
pointer observed after taking the scan lock equals the one recorded
before), `consolidate_with_disk_state` never returns an `Ok` value — the
source ends in `todo!` — and the store's snapshot pointer, hence its
generation, is never replaced or bumped by this function. -/
theorem C2_consolidate_never_publishes (indexBefore : Arc SlotMapIndex)
    (s : Store) (env : FsEnv) (h : indexBefore.ptr = s.index.ptr) :
    (∀ o, (consolidate_with_disk_state indexBefore s env).1 ≠ OpResult.ok o)
    ∧ (consolidate_with_disk_state indexBefore s env).2.index = s.index
    ∧ (consolidate_with_disk_state indexBefore s env).2.index.val.generation
        = s.index.val.generation := by
  have key : (∀ o, (consolidate_with_disk_state indexBefore s env).1
        ≠ OpResult.ok o)
      ∧ (consolidate_with_disk_state indexBefore s env).2.index
        = s.index := by
    simp only [consolidate_with_disk_state, h, ne_eq, not_true_eq_false,
      if_false]
    split
    · exact ⟨fun o hc => OpResult.noConfusion hc, rfl⟩
    · split
      · exact ⟨fun o hc => OpResult.noConfusion hc, rfl⟩
      · split
        · exact ⟨fun o hc => OpResult.noConfusion hc, rfl⟩
        · exact ⟨fun o hc => OpResult.noConfusion hc, rfl⟩
  exact ⟨key.1, key.2, by rw [key.2]⟩

/-- C2 witness: a race-free consolidation of the sample store leaves its
snapshot pointer in place. -/
theorem C2_consolidate_never_publishes_witness :
    (consolidate_with_disk_state sampleStore.index sampleStore
        sampleEnv).2.index = sampleStore.index :=
  (C2_consolidate_never_publishes sampleStore.index sampleStore sampleEnv
      rfl).2.1

/-- A directory entry whose `metadata()` call fails with a non-not-found
I/O error. -/
def badEntry : DirEntry :=
  { path := "objects/pack/a.idx", metadata := .error (.other 5) }

/-- C7 counterexample: the claim says a failure to retrieve a discovered
entry's metadata aborts the consolidation; but the scan's
`.filter_map(|e| e.metadata().ok())` silently drops such an entry — the
scan succeeds with an empty result instead of propagating the error. -/
theorem C7_metadata_error_not_propagated :
    scanPackDir (.ok [.ok badEntry]) = .ok []
      ∧ scanPackDir (.ok [.ok badEntry]) ≠ .error (.Io (.other 5)) := by
  decide

/-- If some kept entry's modification-time retrieval fails, collecting the
modification times fails. -/
theorem collectMtimes_error_of_mem {l : List (String × Metadata)}
    {x : String × Metadata} (hx : x ∈ l) {e : IoError}
    (he : x.2.modified = .error e) :
    ∃ e', collectMtimes l = .error e' := by
  induction l with
  | nil => cases hx
  | cons y ys ih =>
    rcases List.mem_cons.mp hx with rfl | hx'
    · exact ⟨.Io e, by simp [collectMtimes, he]⟩
    · cases hy : y.2.modified with
      | error e2 => exact ⟨.Io e2, by simp [collectMtimes, hy]⟩
      | ok t =>
        obtain ⟨e', he'⟩ := ih hx'
        exact ⟨e', by simp [collectMtimes, hy, he']⟩

/-- C7 amended: during the pack-subdirectory scan, a failure to open the
directory other than not-found propagates, and a failure to retrieve a
kept regular file's modification time aborts the scan; however, a
directory entry whose retrieval or metadata lookup fails is silently
dropped from the scan rather than aborting it. -/
theorem C7_scan_error_handling (e ioe : IoError)
    (l₁ l₂ : List (Except IoError DirEntry)) (ent : DirEntry)
    (md : Metadata) :
    (e ≠ .notFound → scanPackDir (.error e) = .error (.Io e))
    ∧ scanPackDir (.ok (l₁ ++ .error ioe :: l₂))
        = scanPackDir (.ok (l₁ ++ l₂))
    ∧ ((∃ e', ent.metadata = .error e') →
        scanPackDir (.ok (l₁ ++ .ok ent :: l₂))
          = scanPackDir (.ok (l₁ ++ l₂)))
    ∧ (ent.metadata = .ok md → md.is_file = true →
       scanNameFilter ent.path = true → md.modified = .error ioe →
        ∃ e', scanPackDir (.ok (l₁ ++ .ok ent :: l₂)) = .error e') := by
  refine ⟨?_, ?_, ?_, ?_⟩
  · intro hne
    cases e with
    | notFound => exact absurd rfl hne
    | other c => rfl
  · simp [scanPackDir, List.filterMap_append, Except.toOption]
  · rintro ⟨e', he'⟩
    simp [scanPackDir, List.filterMap_append, Except.toOption, he']
  · intro hmd hfile hname hmod
    have hmem : (ent.path, md) ∈
        ((((l₁ ++ .ok ent :: l₂).filterMap Except.toOption).filterMap
          (fun e => e.metadata.toOption.map (fun m => (e.path, m)))).filter
            (fun x => x.2.is_file)).filter (fun x => scanNameFilter x.1) := by
      refine List.mem_filter.mpr ⟨List.mem_filter.mpr ⟨?_, by simp [hfile]⟩,
        by simp [hname]⟩
      refine List.mem_filterMap.mpr ⟨ent, ?_, by simp [hmd, Except.toOption]⟩
      refine List.mem_filterMap.mpr ⟨.ok ent, ?_, rfl⟩
      simp [List.mem_append]
    obtain ⟨e', he'⟩ := collectMtimes_error_of_mem hmem (e := ioe) hmod
    exact ⟨e', he'⟩

/-- C7 amended witness: a non-not-found failure to open the pack
directory propagates as an `Io` error. -/
theorem C7_scan_error_handling_witness :
    scanPackDir (.error (.other 3)) = .error (.Io (.other 3)) :=
  (C7_scan_error_handling (.other 3) (.other 0) [] [] badEntry
      { is_file := true, modified := .ok 0 }).1 (by decide)

/-- A directory entry whose retrieval and metadata succeed. -/
def mkGoodEntry (p : String) (isf : Bool) (t : Nat) : DirEntry :=
  { path := p, metadata := .ok { is_file := isf, modified := .ok t } }

/-- C8: a missing pack subdirectory is treated as an empty listing, and a
scan over successfully stat-ed entries keeps exactly the regular files
whose extension is `idx` or whose extensionless file name is exactly
`multi-pack-index`, pairing each with its modification time. -/
theorem C8_scan_selection (l : List (String × Bool × Nat)) :
    scanPackDir (.error .notFound) = .ok []
    ∧ scanPackDir (.ok (l.map (fun x => .ok (mkGoodEntry x.1 x.2.1 x.2.2))))
        = .ok ((l.filter (fun x => x.2.1 && scanNameFilter x.1)).map
            (fun x => (x.1, x.2.2))) := by
  refine ⟨rfl, ?_⟩
  induction l with
  | nil => rfl
  | cons x xs ih =>
    obtain ⟨p, isf, t⟩ := x
    simp only [scanPackDir] at ih ⊢
    cases isf with
    | false =>
      simpa [mkGoodEntry, Except.toOption] using ih
    | true =>
      by_cases hn : scanNameFilter p = true
      · simp [mkGoodEntry, Except.toOption, hn] at ih ⊢
        simp [collectMtimes, ih]
      · simp [mkGoodEntry, Except.toOption, hn] at ih ⊢
        exact ih

/-- C10: `collect_snapshot` walks the live slot indices and omits every
slot whose primary index file has no loaded value (including unbound
slots) — no placeholder entry carries such a slot's id — and the
loose-store list of the produced snapshot is the slot-map snapshot's own
shared list, not a copy. -/
theorem C10_collect_snapshot_omits_unloaded (s : Store) (idx : Nat)
    (h : primary_unloaded (slotAt s idx).files = true) :
    (∀ e ∈ (collect_snapshot s).indices, e.id ≠ idx)
    ∧ (collect_snapshot s).loose_dbs = s.index.val.loose_dbs := by
  refine ⟨?_, rfl⟩
  intro e he
  by_cases hinit : SlotMapIndex.is_initialized s.index.val = true
  · simp only [collect_snapshot, hinit, if_true] at he
    rcases List.mem_filterMap.mp he with ⟨x, hx, hfx⟩
    rcases List.mem_map.mp hx with ⟨i, _hi, rfl⟩
    dsimp only at hfx
    split at hfx
    · exact Option.noConfusion hfx
    · exact Option.noConfusion hfx
    · rename_i lookup heq
      cases hfx
      intro hcontra
      have hi : i = idx := hcontra
      subst hi
      rcases hff : (slotAt s i).files with _ | b
      · rw [hff] at heq
        exact Option.noConfusion heq
      · rw [hff] at heq
        cases b with
        | Index bundle =>
          rcases hl : OnDiskFile.loaded bundle.index with _ | v
          · simp [hl] at heq
          · simp [primary_unloaded, hff, hl] at h
        | MultiIndex multi =>
          rcases hl : OnDiskFile.loaded multi.multi_index with _ | v
          · simp [hl] at heq
          · simp [primary_unloaded, hff, hl] at h
  · simp only [collect_snapshot, hinit, if_false] at he
    simp at he

/-- C10 witness: the sample store's snapshot shares the loose-db list by
reference (same pointer identity) with the slot-map snapshot. -/
theorem C10_collect_snapshot_omits_unloaded_witness :
    (collect_snapshot sampleStore).loose_dbs
      = sampleStore.index.val.loose_dbs :=
  (C10_collect_snapshot_omits_unloaded sampleStore 0 (by decide)).2

end GitOdb
